import Mathlib

/-!
Shallow embedding of the `UnitManager` core of the exclave repository
(`src/unitmanager.rs`).  Registries are association lists, the
`current_scenario` / `current_jig` slots hold copies of the unit objects
(mirroring the `Rc` handles of the source), and every manager operation is a
function from `ManagerState` to `Except String (... × ManagerState)`: the
outer `Except String` is a Rust panic (`unimplemented!()`, `.expect(...)`, or
the `RefCell` double-borrow aborts in `activate_jig` / `activate_scenario`,
whose `if let ... = slot.borrow_mut().take()` holds its `RefMut` across the
cascading `deactivate` that re-borrows the same slot), the inner result
mirrors the Rust return value.  Broadcast events, unit hook
invocations and messages delivered to interfaces are recorded in the state in
the order they happen.
-/

namespace Exclave

/-- The unit kinds dispatched on by `unitmanager.rs` (the `match` arms of
`select`, `deselect`, `activate`, `deactivate` and `unload`). -/
inductive UnitKind
  | jig
  | scenario
  | test
  | interface
  | internal
deriving DecidableEq

/-- Modelled from the spec: a `UnitName` is an id string together with a kind;
two names are equal iff both fields match. -/
structure UnitName where
  id : String
  kind : UnitKind
deriving DecidableEq

/-- Modelled from the spec: `UnitName` is displayed as `id.kind` (used in the
`format!` strings of `unitmanager.rs`). -/
def UnitKind.display : UnitKind → String
  | UnitKind.jig => "jig"
  | UnitKind.scenario => "scenario"
  | UnitKind.test => "test"
  | UnitKind.interface => "interface"
  | UnitKind.internal => "internal"

/-- Display form of a `UnitName`, `id.kind`. -/
def UnitName.display (n : UnitName) : String :=
  n.id ++ "." ++ n.kind.display

/-- The `FieldType` enum of `unitmanager.rs`. -/
inductive FieldType
  | name
  | description
deriving DecidableEq

/-- Modelled from the spec: log levels of a `LogEntry`
(`unitbroadcaster.rs` is not under `src/`; only `new_info` and `new_error`
are used by `unitmanager.rs`). -/
inductive LogLevel
  | info
  | error
deriving DecidableEq

/-- Modelled from the spec: a `LogEntry` carries a source unit, a level and
the text (timestamps are not modelled; no claim depends on them). -/
structure LogEntry where
  source : UnitName
  level : LogLevel
  text : String
deriving DecidableEq

/-- Modelled from the spec: the status payloads produced by the
`UnitStatusEvent::new_*` constructors that `unitmanager.rs` calls. -/
inductive UnitStatus
  | active
  | activeFailed (msg : String)
  | deselected (reason : String)
  | deactivateSuccess (reason : String)
  | deactivateFailure (msg : String)
deriving DecidableEq

/-- A status event: a unit name and its new status. -/
structure UnitStatusEvent where
  name : UnitName
  status : UnitStatus
deriving DecidableEq

/-- The `ManagerControlMessageContents` enum of `unitmanager.rs`. -/
inductive ManagerControlMessageContents
  | jig
  | scenarios
  | scenario (name : UnitName)
  | tests (name : Option UnitName)
  | error (msg : String)
  | initialGreeting
  | childExited
  | unimplementedVerb (verb : String) (rest : String)
  | log (msg : String)
  | logError (msg : String)
  | start (name : Option UnitName)
deriving DecidableEq

/-- The `ManagerControlMessage` struct of `unitmanager.rs`. -/
structure ManagerControlMessage where
  sender : UnitName
  contents : ManagerControlMessageContents
deriving DecidableEq

/-- The `UnitEvent` variants that `unitmanager.rs` produces or consumes. -/
inductive UnitEvent
  | status (e : UnitStatusEvent)
  | log (entry : LogEntry)
  | managerRequest (m : ManagerControlMessage)
  | rescanRequest
  | shutdown
deriving DecidableEq

/-- The `ManagerStatusMessage` enum of `unitmanager.rs`. -/
inductive ManagerStatusMessage
  | jig (n : UnitName)
  | scenarios (ns : List UnitName)
  | scenario (n : Option UnitName)
  | tests (scenarioName : UnitName) (ts : List UnitName)
  | hello (s : String)
  | describe (k : UnitKind) (f : FieldType) (unitId : String) (value : String)
  | log (entry : LogEntry)
deriving DecidableEq

/-- Modelled from the spec: a loaded `Test` unit (`units/test.rs` is not under
`src/`); `unitmanager.rs` reads only its name and description. -/
structure Test where
  id : UnitName
  name : String
  description : String
deriving DecidableEq

/-- Modelled from the spec: a loaded `Scenario` unit (`units/scenario.rs` is
not under `src/`).  `tests` is the map iterated by `send_scenario_to`,
`test_sequence` the ordered list.  The four `...Err` fields parameterize the
results of the unit's own `select` / `deselect` / `activate` / `deactivate`
hooks: `none` means the hook returns `Ok(())`. -/
structure Scenario where
  id : UnitName
  name : String
  description : String
  tests : List (UnitName × Test)
  test_sequence : List UnitName
  selectErr : Option String
  deselectErr : Option String
  activateErr : Option String
  deactivateErr : Option String
deriving DecidableEq

/-- Modelled from the spec: a loaded `Jig` unit (`units/jig.rs` is not under
`src/`) with its optional `default_scenario` and parameterized hook results. -/
structure Jig where
  id : UnitName
  name : String
  description : String
  default_scenario : Option UnitName
  deselectErr : Option String
  activateErr : Option String
deriving DecidableEq

/-- Modelled from the spec: a loaded `Interface` unit (`units/interface.rs` is
not under `src/`).  `outputErr = some e` means every `output_message` call on
this interface fails with `e`; `none` means every call succeeds.  The
`activateErr` / `deactivateErr` fields parameterize its hooks. -/
structure Interface where
  id : UnitName
  outputErr : Option String
  activateErr : Option String
  deactivateErr : Option String
deriving DecidableEq

/-- A record of one invocation of a unit's own lifecycle hook (the
`borrow_mut().select()` / `.deselect()` / `.activate()` / `.deactivate()`
calls in `unitmanager.rs`). -/
inductive HookCall
  | selectHook (u : UnitName)
  | deselectHook (u : UnitName)
  | activateHook (u : UnitName)
  | deactivateHook (u : UnitName)
deriving DecidableEq

/-- The `UnitManager` state: the four registries, the two singleton slots
(holding unit copies, like the `Rc` handles of the source), and the three
observation logs: broadcast `events`, unit `hooks` invoked, and messages
`sent` to interfaces (recipient paired with each message, in delivery
order). -/
structure ManagerState where
  interfaces : List (UnitName × Interface)
  jigs : List (UnitName × Jig)
  scenarios : List (UnitName × Scenario)
  tests : List (UnitName × Test)
  current_scenario : Option Scenario
  current_jig : Option Jig
  events : List UnitEvent
  hooks : List HookCall
  sent : List (UnitName × ManagerStatusMessage)
deriving DecidableEq

/-- Association-list lookup, the model of `HashMap::get`. -/
def lookupKV {α : Type} : List (UnitName × α) → UnitName → Option α
  | [], _ => none
  | (k, v) :: rest, n => if k = n then some v else lookupKV rest n

/-- Association-list removal, the model of `HashMap::remove`. -/
def removeKV {α : Type} (l : List (UnitName × α)) (n : UnitName) :
    List (UnitName × α) :=
  l.filter (fun p => decide (p.1 ≠ n))

/-- The model of `self.bc.broadcast(&event)`: append the event. -/
def ManagerState.broadcast (st : ManagerState) (e : UnitEvent) : ManagerState :=
  { st with events := st.events ++ [e] }

/-- Record an invocation of a unit lifecycle hook. -/
def ManagerState.hook (st : ManagerState) (h : HookCall) : ManagerState :=
  { st with hooks := st.hooks ++ [h] }

/-- The `UnitSelectError` of `unit.rs` (not under `src/`): a select either
fails to find the unit or its hook fails with a message. -/
inductive UnitSelectError
  | unitNotFound
  | hookFailed (msg : String)
deriving DecidableEq

/-- The `UnitDeselectError` of `unit.rs` (not under `src/`). -/
inductive UnitDeselectError
  | hookFailed (msg : String)
deriving DecidableEq

/-- The `UnitActivateError` of `unit.rs` (not under `src/`). -/
inductive UnitActivateError
  | unitNotFound
  | hookFailed (msg : String)
deriving DecidableEq

/-- The `UnitDeactivateError` of `unit.rs` (not under `src/`). -/
inductive UnitDeactivateError
  | unitNotFound
  | hookFailed (msg : String)
deriving DecidableEq

/-- Modelled from the spec: `Display` text of a select error (only used
inside `format!` strings; no claim depends on the exact text). -/
def UnitSelectError.display : UnitSelectError → String
  | UnitSelectError.unitNotFound => "unit not found"
  | UnitSelectError.hookFailed m => m

/-- Modelled from the spec: `Display` text of an activate error. -/
def UnitActivateError.display : UnitActivateError → String
  | UnitActivateError.unitNotFound => "unit not found"
  | UnitActivateError.hookFailed m => m

/-- Modelled from the spec: `Display` text of a deactivate error. -/
def UnitDeactivateError.display : UnitDeactivateError → String
  | UnitDeactivateError.unitNotFound => "unit not found"
  | UnitDeactivateError.hookFailed m => m

/-- `UnitManager::deselect_scenario` (`unitmanager.rs` lines 334-349): if the
named scenario is not current, nothing to do; otherwise take it out of the
slot and run its `deselect` hook. -/
def deselect_scenario (st : ManagerState) (id : UnitName) :
    Except String (Except UnitDeselectError Unit × ManagerState) :=
  match st.current_scenario with
  | none => Except.ok (Except.ok (), st)
  | some s =>
    if s.id = id then
      let st1 := ({ st with current_scenario := none } : ManagerState).hook
        (HookCall.deselectHook s.id)
      match s.deselectErr with
      | some e => Except.ok (Except.error (UnitDeselectError.hookFailed e), st1)
      | none => Except.ok (Except.ok (), st1)
    else Except.ok (Except.ok (), st)

/-- `UnitManager::deselect_test` (line 301-303): `unimplemented!()`, a panic. -/
def deselect_test (_st : ManagerState) (_id : UnitName) :
    Except String (Except UnitDeselectError Unit × ManagerState) :=
  Except.error "unimplemented"

/-- `UnitManager::deselect_interface` (line 305-307): `unimplemented!()`, a
panic. -/
def deselect_interface (_st : ManagerState) (_id : UnitName) :
    Except String (Except UnitDeselectError Unit × ManagerState) :=
  Except.error "unimplemented"

/-- `UnitManager::deselect` (lines 283-299) together with the inlined body of
`UnitManager::deselect_jig` (lines 309-332): kind dispatch, and on an `Ok`
result broadcast a `Deselected` status.  `deselect_jig`, when the named jig
is the current jig, first deselects the jig's default scenario (if any, a
recursive `deselect` call), then runs the jig's `deselect` hook, and clears
the slot only on hook success; it is inlined here so that the recursion is
structural on `fuel`.  Every top-level entry point supplies fuel 9, far above
the depth any kind-consistent state can reach (a jig's default scenario is a
scenario). -/
def deselectGo : Nat → ManagerState → UnitName → String →
    Except String ManagerState
  | 0, _, _, _ => Except.error "recursion limit"
  | Nat.succ fuel', st, id, reason =>
    let dispatch : Except String (Except UnitDeselectError Unit × ManagerState) :=
      match id.kind with
      | UnitKind.interface => deselect_interface st id
      | UnitKind.test => deselect_test st id
      | UnitKind.scenario => deselect_scenario st id
      | UnitKind.internal => Except.ok (Except.ok (), st)
      | UnitKind.jig =>
        match st.current_jig with
        | none => Except.ok (Except.ok (), st)
        | some j =>
          if j.id = id then
            match (match j.default_scenario with
              | some ds => deselectGo fuel' st ds "jig is deselecting"
              | none => Except.ok st) with
            | Except.error p => Except.error p
            | Except.ok st1 =>
              let st2 := st1.hook (HookCall.deselectHook j.id)
              match j.deselectErr with
              | some e =>
                Except.ok (Except.error (UnitDeselectError.hookFailed e), st2)
              | none => Except.ok (Except.ok (), { st2 with current_jig := none })
          else Except.ok (Except.ok (), st)
    match dispatch with
    | Except.error p => Except.error p
    | Except.ok (Except.ok _, st1) =>
      Except.ok (st1.broadcast (UnitEvent.status ⟨id, UnitStatus.deselected reason⟩))
    | Except.ok (Except.error _, st1) => Except.ok st1

/-- `UnitManager::deselect` at the standard fuel. -/
def deselect (st : ManagerState) (id : UnitName) (reason : String) :
    Except String ManagerState :=
  deselectGo 9 st id reason

/-- `UnitManager::deactivate_interface` (lines 452-458): look the interface up
(`UnitNotFound` when absent) and run its `deactivate` hook. -/
def deactivate_interface (st : ManagerState) (id : UnitName) :
    Except String (Except UnitDeactivateError Unit × ManagerState) :=
  match lookupKV st.interfaces id with
  | none => Except.ok (Except.error UnitDeactivateError.unitNotFound, st)
  | some i =>
    let st1 := st.hook (HookCall.deactivateHook id)
    match i.deactivateErr with
    | some e => Except.ok (Except.error (UnitDeactivateError.hookFailed e), st1)
    | none => Except.ok (Except.ok (), st1)

/-- `UnitManager::deactivate_test` (lines 460-462): `unimplemented!()`. -/
def deactivate_test (_st : ManagerState) (_id : UnitName) :
    Except String (Except UnitDeactivateError Unit × ManagerState) :=
  Except.error "unimplemented"

/-- `UnitManager::deactivate_scenario` (lines 464-481): nothing to do unless
the named scenario is current; otherwise take it and run its `deactivate`
hook. -/
def deactivate_scenario (st : ManagerState) (id : UnitName) :
    Except String (Except UnitDeactivateError Unit × ManagerState) :=
  match st.current_scenario with
  | none => Except.ok (Except.ok (), st)
  | some s =>
    if s.id = id then
      let st1 := ({ st with current_scenario := none } : ManagerState).hook
        (HookCall.deactivateHook s.id)
      match s.deactivateErr with
      | some e => Except.ok (Except.error (UnitDeactivateError.hookFailed e), st1)
      | none => Except.ok (Except.ok (), st1)
    else Except.ok (Except.ok (), st)

/-- `UnitManager::deactivate_jig` (lines 483-485): always `Ok(())`. -/
def deactivate_jig (st : ManagerState) (_id : UnitName) :
    Except String (Except UnitDeactivateError Unit × ManagerState) :=
  Except.ok (Except.ok (), st)

/-- `UnitManager::deactivate` (lines 435-450): deselect first, then the kind
dispatch, then broadcast `DeactivateSuccess` or `DeactivateFailure`. -/
def deactivate (st : ManagerState) (id : UnitName) (reason : String) :
    Except String ManagerState := do
  let st1 ← deselect st id reason
  let (result, st2) ← (match id.kind with
    | UnitKind.interface => deactivate_interface st1 id
    | UnitKind.jig => deactivate_jig st1 id
    | UnitKind.scenario => deactivate_scenario st1 id
    | UnitKind.test => deactivate_test st1 id
    | UnitKind.internal => Except.ok (Except.ok (), st1))
  match result with
  | Except.ok _ =>
    Except.ok (st2.broadcast
      (UnitEvent.status ⟨id, UnitStatus.deactivateSuccess reason⟩))
  | Except.error e =>
    Except.ok (st2.broadcast
      (UnitEvent.status ⟨id, UnitStatus.deactivateFailure
        ("unable to deactivate: " ++ e.display)⟩))

/-- The tail of `UnitManager::select_scenario` (lines 263-268): run the new
scenario's `select` hook, store it as current, broadcast `Active`. -/
def select_scenario_finish (st : ManagerState) (new_scenario : Scenario)
    (id : UnitName) :
    Except String (Except UnitSelectError Unit × ManagerState) :=
  let st1 := st.hook (HookCall.selectHook new_scenario.id)
  match new_scenario.selectErr with
  | some e => Except.ok (Except.error (UnitSelectError.hookFailed e), st1)
  | none =>
    let st2 := { st1 with current_scenario := some new_scenario }
    Except.ok (Except.ok (),
      st2.broadcast (UnitEvent.status ⟨id, UnitStatus.active⟩))

/-- `UnitManager::select_scenario` (lines 239-269).  Note the source passes
the requested `id` — not the id of the old current scenario — to `deselect`
when the two differ; the embedding reproduces that verbatim. -/
def select_scenario (st : ManagerState) (id : UnitName) :
    Except String (Except UnitSelectError Unit × ManagerState) :=
  match lookupKV st.scenarios id with
  | none => Except.ok (Except.error UnitSelectError.unitNotFound, st)
  | some new_scenario =>
    match st.current_scenario with
    | some old =>
      if old.id = id then Except.ok (Except.ok (), st)
      else do
        let st1 ← deselect st id "switching to a new scenario"
        select_scenario_finish st1 new_scenario id
    | none => select_scenario_finish st new_scenario id

/-- `UnitManager::select_jig` (lines 271-273): `unimplemented!()`. -/
def select_jig (_st : ManagerState) (_id : UnitName) :
    Except String (Except UnitSelectError Unit × ManagerState) :=
  Except.error "unimplemented"

/-- `UnitManager::select_test` (lines 275-277): `unimplemented!()`. -/
def select_test (_st : ManagerState) (_id : UnitName) :
    Except String (Except UnitSelectError Unit × ManagerState) :=
  Except.error "unimplemented"

/-- `UnitManager::select_interface` (lines 279-281): `unimplemented!()`. -/
def select_interface (_st : ManagerState) (_id : UnitName) :
    Except String (Except UnitSelectError Unit × ManagerState) :=
  Except.error "unimplemented"

/-- `UnitManager::select` (lines 221-237): kind dispatch, then broadcast
`Active` on `Ok` and `ActiveFailed` on `Err` (the source formats the failure
with the literal text "unable to deactivate"). -/
def select (st : ManagerState) (id : UnitName) : Except String ManagerState := do
  let (result, st1) ← (match id.kind with
    | UnitKind.interface => select_interface st id
    | UnitKind.jig => select_jig st id
    | UnitKind.scenario => select_scenario st id
    | UnitKind.test => select_test st id
    | UnitKind.internal => Except.ok (Except.ok (), st))
  match result with
  | Except.ok _ =>
    Except.ok (st1.broadcast (UnitEvent.status ⟨id, UnitStatus.active⟩))
  | Except.error e =>
    Except.ok (st1.broadcast (UnitEvent.status ⟨id, UnitStatus.activeFailed
      ("unable to deactivate: " ++ e.display)⟩))

/-- `UnitManager::activate_interface` (lines 370-380). -/
def activate_interface (st : ManagerState) (id : UnitName) :
    Except String (Except UnitActivateError Unit × ManagerState) :=
  match lookupKV st.interfaces id with
  | none => Except.ok (Except.error UnitActivateError.unitNotFound, st)
  | some i =>
    let st1 := st.hook (HookCall.activateHook id)
    match i.activateErr with
    | some e => Except.ok (Except.error (UnitActivateError.hookFailed e), st1)
    | none => Except.ok (Except.ok (), st1)

/-- `UnitManager::activate_scenario` (lines 411-429): look the new scenario
up first (line 412, before any slot access), then take any old current
scenario out of the slot and deactivate it.  The `if let Some(ref
old_scenario) = self.current_scenario.borrow_mut().take()` at line 419 keeps
its `RefMut` temporary alive for the whole `if let` body, and the
`deactivate` inside re-borrows `current_scenario` in `deselect_scenario`
(line 336) — a `BorrowError` panic whenever a scenario was current.  On the
panic-free path the new scenario's `activate` hook runs, it is stored as
current and `Active` is broadcast. -/
def activate_scenario (st : ManagerState) (id : UnitName) :
    Except String (Except UnitActivateError Unit × ManagerState) :=
  match lookupKV st.scenarios id with
  | none => Except.ok (Except.error UnitActivateError.unitNotFound, st)
  | some new_scenario =>
    match st.current_scenario with
    | some _ => Except.error "already mutably borrowed: BorrowError"
    | none =>
      let st2 := st.hook (HookCall.activateHook new_scenario.id)
      match new_scenario.activateErr with
      | some e => Except.ok (Except.error (UnitActivateError.hookFailed e), st2)
      | none =>
        let st3 := { st2 with current_scenario := some new_scenario }
        Except.ok (Except.ok (),
          st3.broadcast (UnitEvent.status ⟨id, UnitStatus.active⟩))

/-- `UnitManager::activate_jig` (lines 385-409): look the new jig up, take
any old current jig out of the slot and deactivate it.  The `if let
Some(ref old_jig) = self.current_jig.borrow_mut().take()` at line 393 keeps
its `RefMut` temporary alive for the whole `if let` body, and the
`deactivate` inside re-borrows `current_jig` in `deselect_jig` (line 311) —
a `BorrowMutError` panic whenever a jig was current.  On the panic-free path
the new jig's `activate` hook runs, it is stored as current, `Active` is
broadcast, and finally the declared default scenario (if any) is activated —
an error there propagates through `?` as the overall result, after
`current_jig` has already been set. -/
def activate_jig (st : ManagerState) (id : UnitName) :
    Except String (Except UnitActivateError Unit × ManagerState) :=
  match lookupKV st.jigs id with
  | none => Except.ok (Except.error UnitActivateError.unitNotFound, st)
  | some new_jig =>
    match st.current_jig with
    | some _ => Except.error "already borrowed: BorrowMutError"
    | none =>
      let st2 := st.hook (HookCall.activateHook new_jig.id)
      match new_jig.activateErr with
      | some e => Except.ok (Except.error (UnitActivateError.hookFailed e), st2)
      | none =>
        let st3 := ({ st2 with current_jig := some new_jig } :
          ManagerState).broadcast (UnitEvent.status ⟨id, UnitStatus.active⟩)
        match new_jig.default_scenario with
        | none => Except.ok (Except.ok (), st3)
        | some ds => do
          let (r, st4) ← activate_scenario st3 ds
          match r with
          | Except.error e => Except.ok (Except.error e, st4)
          | Except.ok _ => Except.ok (Except.ok (), st4)

/-- `UnitManager::activate_test` (lines 431-433): `unimplemented!()`. -/
def activate_test (_st : ManagerState) (_id : UnitName) :
    Except String (Except UnitActivateError Unit × ManagerState) :=
  Except.error "unimplemented"

/-- `UnitManager::activate` (lines 351-367). -/
def activate (st : ManagerState) (id : UnitName) : Except String ManagerState := do
  let (result, st1) ← (match id.kind with
    | UnitKind.interface => activate_interface st id
    | UnitKind.jig => activate_jig st id
    | UnitKind.scenario => activate_scenario st id
    | UnitKind.test => activate_test st id
    | UnitKind.internal => Except.ok (Except.ok (), st))
  match result with
  | Except.ok _ =>
    Except.ok (st1.broadcast (UnitEvent.status ⟨id, UnitStatus.active⟩))
  | Except.error e =>
    Except.ok (st1.broadcast (UnitEvent.status ⟨id, UnitStatus.activeFailed
      ("unable to deactivate: " ++ e.display)⟩))

/-- `UnitManager::unload_interface` (lines 498-500). -/
def unload_interface (st : ManagerState) (id : UnitName) : ManagerState :=
  { st with interfaces := removeKV st.interfaces id }

/-- `UnitManager::unload_jig` (lines 502-504). -/
def unload_jig (st : ManagerState) (id : UnitName) : ManagerState :=
  { st with jigs := removeKV st.jigs id }

/-- `UnitManager::unload_test` (lines 506-508). -/
def unload_test (st : ManagerState) (id : UnitName) : ManagerState :=
  { st with tests := removeKV st.tests id }

/-- `UnitManager::unload_scenario` (lines 510-512). -/
def unload_scenario (st : ManagerState) (id : UnitName) : ManagerState :=
  { st with scenarios := removeKV st.scenarios id }

/-- `UnitManager::unload` (lines 487-496): deselect first, then remove from
the kind's registry. -/
def unload (st : ManagerState) (id : UnitName) : Except String ManagerState := do
  let st1 ← deselect st id "unloading"
  match id.kind with
  | UnitKind.interface => Except.ok (unload_interface st1 id)
  | UnitKind.jig => Except.ok (unload_jig st1 id)
  | UnitKind.scenario => Except.ok (unload_scenario st1 id)
  | UnitKind.test => Except.ok (unload_test st1 id)
  | UnitKind.internal => Except.ok st1

/-- `UnitManager::get_scenario_named` (lines 514-519). -/
def get_scenario_named (st : ManagerState) (id : UnitName) : Option Scenario :=
  lookupKV st.scenarios id

/-- `UnitManager::get_test_named` (lines 521-526). -/
def get_test_named (st : ManagerState) (id : UnitName) : Option Test :=
  lookupKV st.tests id

/-- `UnitManager::jig_is_loaded` (lines 536-538). -/
def jig_is_loaded (st : ManagerState) (id : UnitName) : Bool :=
  (lookupKV st.jigs id).isSome

/-- `UnitManager::send_messages_to` (lines 729-747): only interface-kind
recipients receive anything; the recipient is looked up with
`.expect("Unable to find Interface in the library")` — a panic when absent.
Output is modelled per interface as uniformly succeeding or uniformly
failing (`Interface.outputErr`), so a failure hits the first message of the
batch and the loop breaks there, after which the manager deactivates the
recipient with reason "communication error: e". -/
def send_messages_to (st : ManagerState) (sender_name : UnitName)
    (messages : List ManagerStatusMessage) : Except String ManagerState :=
  match sender_name.kind with
  | UnitKind.interface =>
    (match lookupKV st.interfaces sender_name with
    | none => Except.error "Unable to find Interface in the library"
    | some i =>
      match i.outputErr with
      | none =>
        Except.ok { st with sent := st.sent ++ messages.map (fun m => (sender_name, m)) }
      | some e =>
        match messages with
        | [] => Except.ok st
        | _ :: _ => deactivate st sender_name ("communication error: " ++ e))
  | _ => Except.ok st

/-- `UnitManager::send_hello_to` (lines 623-625): the version banner, exact
string "Jig/20 1.0". -/
def send_hello_to (st : ManagerState) (sender_name : UnitName) :
    Except String ManagerState :=
  send_messages_to st sender_name [ManagerStatusMessage.hello "Jig/20 1.0"]

/-- The message batch built by `UnitManager::send_jig_to` (lines 627-640): an
empty-id placeholder when no jig is current, otherwise the jig identity plus
its Name and Description describes. -/
def jig_messages (st : ManagerState) : List ManagerStatusMessage :=
  match st.current_jig with
  | none => [ManagerStatusMessage.jig ⟨"", UnitKind.jig⟩]
  | some jig =>
    [ManagerStatusMessage.jig jig.id,
     ManagerStatusMessage.describe jig.id.kind FieldType.name jig.id.id jig.name,
     ManagerStatusMessage.describe jig.id.kind FieldType.description jig.id.id
       jig.description]

/-- `UnitManager::send_jig_to` (lines 627-640). -/
def send_jig_to (st : ManagerState) (sender_name : UnitName) :
    Except String ManagerState :=
  send_messages_to st sender_name (jig_messages st)

/-- The message batch built by `UnitManager::send_scenarios_to` (lines
643-650): the list of loaded scenario names followed by a Name and a
Description describe per scenario. -/
def scenarios_messages (st : ManagerState) : List ManagerStatusMessage :=
  ManagerStatusMessage.scenarios (st.scenarios.map Prod.fst) ::
  st.scenarios.flatMap (fun p =>
    [ManagerStatusMessage.describe p.1.kind FieldType.name p.1.id p.2.name,
     ManagerStatusMessage.describe p.1.kind FieldType.description p.1.id
       p.2.description])

/-- `UnitManager::send_scenarios_to` (lines 643-650). -/
def send_scenarios_to (st : ManagerState) (sender_name : UnitName) :
    Except String ManagerState :=
  send_messages_to st sender_name (scenarios_messages st)

/-- The message batch built by `UnitManager::send_scenario_to` (lines
652-668): `Scenario(None)` when the name is not loaded, otherwise the
identity, a Name and a Description describe per test of the scenario, and
the `Tests` sequence. -/
def scenario_messages (st : ManagerState) (scenario_name : UnitName) :
    List ManagerStatusMessage :=
  match lookupKV st.scenarios scenario_name with
  | none => [ManagerStatusMessage.scenario none]
  | some sc =>
    ManagerStatusMessage.scenario (some scenario_name) ::
    (sc.tests.flatMap (fun p =>
      [ManagerStatusMessage.describe p.1.kind FieldType.name p.1.id p.2.name,
       ManagerStatusMessage.describe p.1.kind FieldType.description p.1.id
         p.2.description])
     ++ [ManagerStatusMessage.tests sc.id sc.test_sequence])

/-- `UnitManager::send_scenario_to` (lines 652-668). -/
def send_scenario_to (st : ManagerState) (sender_name : UnitName)
    (scenario_name : UnitName) : Except String ManagerState :=
  send_messages_to st sender_name (scenario_messages st scenario_name)

/-- The second half of `UnitManager::send_tests_to` (lines 683-692), after
the scenario id has been resolved. -/
def send_tests_resolved (st : ManagerState) (sender_name : UnitName)
    (scenario_id : UnitName) : Except String ManagerState :=
  match lookupKV st.scenarios scenario_id with
  | none =>
    Except.ok (st.broadcast (UnitEvent.log ⟨sender_name, LogLevel.error,
      "unable to list tests, scenario " ++ scenario_id.display ++ " not found"⟩))
  | some sc =>
    send_messages_to st sender_name
      [ManagerStatusMessage.tests sc.id sc.test_sequence]

/-- `UnitManager::send_tests_to` (lines 672-692): resolve the named scenario
or the current one; when neither exists, broadcast an error log and stop. -/
def send_tests_to (st : ManagerState) (sender_name : UnitName)
    (scenario_name_opt : Option UnitName) : Except String ManagerState :=
  match scenario_name_opt with
  | some n => send_tests_resolved st sender_name n
  | none =>
    match st.current_scenario with
    | some cs => send_tests_resolved st sender_name cs.id
    | none =>
      Except.ok (st.broadcast (UnitEvent.log ⟨sender_name, LogLevel.error,
        "unable to list tests, no scenario specified and no scenario selected"⟩))

/-- The loop bodies of `broadcast_jig_named` / `broadcast_scenario_named`:
send the same batch to each interface of the snapshot, in order. -/
def send_to_each (st : ManagerState) : List UnitName →
    List ManagerStatusMessage → Except String ManagerState
  | [], _ => Except.ok st
  | n :: rest, msgs => do
    let st1 ← send_messages_to st n msgs
    send_to_each st1 rest msgs

/-- `UnitManager::broadcast_jig_named` (lines 694-709): nothing when the jig
is not loaded; otherwise send each interface the jig identity, a Name
describe and a Description describe. -/
def broadcast_jig_named (st : ManagerState) (jig_id : UnitName) :
    Except String ManagerState :=
  match lookupKV st.jigs jig_id with
  | none => Except.ok st
  | some jig =>
    send_to_each st (st.interfaces.map Prod.fst)
      [ManagerStatusMessage.jig jig.id,
       ManagerStatusMessage.describe jig.id.kind FieldType.name jig.id.id jig.name,
       ManagerStatusMessage.describe jig.id.kind FieldType.description jig.id.id
         jig.description]

/-- `UnitManager::broadcast_scenario_named` (lines 711-726): nothing when the
scenario is not loaded; otherwise send each interface the scenario identity,
a Name describe and a Description describe (and nothing else). -/
def broadcast_scenario_named (st : ManagerState) (scenario_id : UnitName) :
    Except String ManagerState :=
  match lookupKV st.scenarios scenario_id with
  | none => Except.ok st
  | some sc =>
    send_to_each st (st.interfaces.map Prod.fst)
      [ManagerStatusMessage.scenario (some sc.id),
       ManagerStatusMessage.describe sc.id.kind FieldType.name sc.id.id sc.name,
       ManagerStatusMessage.describe sc.id.kind FieldType.description sc.id.id
         sc.description]

/-- `UnitManager::status_message` (lines 554-564): on an `Active` status of a
jig or a scenario, re-broadcast its descriptive metadata to all interfaces. -/
def status_message (st : ManagerState) (msg : UnitStatusEvent) :
    Except String ManagerState :=
  match msg.status with
  | UnitStatus.active =>
    (match msg.name.kind with
    | UnitKind.jig => broadcast_jig_named st msg.name
    | UnitKind.scenario => broadcast_scenario_named st msg.name
    | _ => Except.ok st)
  | _ => Except.ok st

/-- `UnitManager::manager_request` (lines 566-621).  Note the `Start` arm:
the source resolves the scenario handle (logging an error when it cannot)
and then simply drops it — no runner is invoked. -/
def manager_request (st : ManagerState) (msg : ManagerControlMessage) :
    Except String ManagerState :=
  match msg.contents with
  | ManagerControlMessageContents.scenarios => send_scenarios_to st msg.sender
  | ManagerControlMessageContents.tests so => send_tests_to st msg.sender so
  | ManagerControlMessageContents.log txt =>
    Except.ok (st.broadcast (UnitEvent.log ⟨msg.sender, LogLevel.info, txt⟩))
  | ManagerControlMessageContents.logError txt =>
    Except.ok (st.broadcast (UnitEvent.log ⟨msg.sender, LogLevel.error, txt⟩))
  | ManagerControlMessageContents.scenario new_scenario_name =>
    if (get_scenario_named st new_scenario_name).isSome then
      activate st new_scenario_name
    else
      Except.ok (st.broadcast (UnitEvent.log ⟨msg.sender, LogLevel.error,
        "unable to find scenario " ++ new_scenario_name.display⟩))
  | ManagerControlMessageContents.error err =>
    Except.ok (st.broadcast (UnitEvent.log ⟨msg.sender, LogLevel.error, err⟩))
  | ManagerControlMessageContents.jig => send_jig_to st msg.sender
  | ManagerControlMessageContents.initialGreeting => do
    let st1 ← send_hello_to st msg.sender
    let st2 ← send_jig_to st1 msg.sender
    let st3 ← send_scenarios_to st2 msg.sender
    (match st3.current_scenario with
    | some sc => send_scenario_to st3 msg.sender sc.id
    | none => Except.ok st3)
  | ManagerControlMessageContents.childExited =>
    Except.ok (st.broadcast (UnitEvent.status ⟨msg.sender,
      UnitStatus.activeFailed "Unit unexpectedly exited"⟩))
  | ManagerControlMessageContents.unimplementedVerb verb rest =>
    Except.ok (st.broadcast (UnitEvent.log ⟨msg.sender, LogLevel.error,
      "unimplemented verb: " ++ verb ++ " (args: " ++ rest ++ ")"⟩))
  | ManagerControlMessageContents.start scenario_name_opt =>
    match scenario_name_opt with
    | some scenario_name =>
      (match lookupKV st.scenarios scenario_name with
      | none =>
        Except.ok (st.broadcast (UnitEvent.log ⟨msg.sender, LogLevel.error,
          "unable to find scenario " ++ scenario_name.display ++ " to start it"⟩))
      | some _ => Except.ok st)
    | none =>
      match st.current_scenario with
      | none =>
        Except.ok (st.broadcast (UnitEvent.log ⟨msg.sender, LogLevel.error,
          "no scenario selected to start"⟩))
      | some _ => Except.ok st

/-- The `UnitEvent::Log` arm of `process_message` (lines 544-549): forward
the entry to every interface, with `.expect("Unable to pass message to
client")` — a panic — on the first output failure. -/
def log_fanout (l : LogEntry) : ManagerState → List (UnitName × Interface) →
    Except String ManagerState
  | st, [] => Except.ok st
  | st, (n, i) :: rest =>
    match i.outputErr with
    | some _ => Except.error "Unable to pass message to client"
    | none =>
      log_fanout l { st with sent := st.sent ++ [(n, ManagerStatusMessage.log l)] }
        rest

/-- `UnitManager::process_message` (lines 540-552). -/
def process_message (st : ManagerState) (msg : UnitEvent) :
    Except String ManagerState :=
  match msg with
  | UnitEvent.managerRequest req => manager_request st req
  | UnitEvent.status s => status_message st s
  | UnitEvent.log l => log_fanout l st st.interfaces
  | _ => Except.ok st

/-- The messages the `InitialGreeting` arm of `manager_request` (lines
585-594) delivers to the greeted client, in order: the Hello banner, the
current-jig batch, the scenario-list batch, and — exactly when a scenario is
current — that scenario's detail batch. -/
def greeting_messages (st : ManagerState) : List ManagerStatusMessage :=
  ManagerStatusMessage.hello "Jig/20 1.0" ::
  (jig_messages st ++ scenarios_messages st ++
    (match st.current_scenario with
     | some sc => scenario_messages st sc.id
     | none => []))

/-- Registries are kind-consistent: every key carries the kind of its
registry.  Every state reachable through `load_*` satisfies this. -/
def WellKinded (st : ManagerState) : Prop :=
  (∀ p ∈ st.interfaces, (p : UnitName × Interface).1.kind = UnitKind.interface) ∧
  (∀ p ∈ st.jigs, (p : UnitName × Jig).1.kind = UnitKind.jig) ∧
  (∀ p ∈ st.scenarios, (p : UnitName × Scenario).1.kind = UnitKind.scenario) ∧
  (∀ p ∈ st.tests, (p : UnitName × Test).1.kind = UnitKind.test)

/-- Every jig reachable through the `current_jig` slot names a scenario-kind
unit as its default scenario (the shape every real configuration has). -/
def JigDefaultIsScenario (st : ManagerState) : Prop :=
  ∀ j ds, st.current_jig = some j → j.default_scenario = some ds →
    ds.kind = UnitKind.scenario

/-- Whether an `Except` computation succeeded. -/
def exceptIsOk {e a : Type} : Except e a → Bool
  | Except.ok _ => true
  | Except.error _ => false

/-! ### Concrete states used by the counterexample and witness theorems -/

/-- A manager with nothing loaded. -/
def emptyState : ManagerState :=
  { interfaces := [],
    jigs := [],
    scenarios := [],
    tests := [],
    current_scenario := none,
    current_jig := none,
    events := [],
    hooks := [],
    sent := [] }

/-- A loaded scenario named `a.scenario` with all hooks succeeding. -/
def scA : Scenario :=
  { id := ⟨"a", UnitKind.scenario⟩,
    name := "A",
    description := "scenario a",
    tests := [],
    test_sequence := [],
    selectErr := none,
    deselectErr := none,
    activateErr := none,
    deactivateErr := none }

/-- A loaded scenario named `b.scenario` with all hooks succeeding. -/
def scB : Scenario :=
  { id := ⟨"b", UnitKind.scenario⟩,
    name := "B",
    description := "scenario b",
    tests := [],
    test_sequence := [],
    selectErr := none,
    deselectErr := none,
    activateErr := none,
    deactivateErr := none }

/-- A loaded test named `t.test`. -/
def tT : Test :=
  { id := ⟨"t", UnitKind.test⟩,
    name := "T",
    description := "test t" }

/-- An interface whose output channel works. -/
def ifGood : Interface :=
  { id := ⟨"if0", UnitKind.interface⟩,
    outputErr := none,
    activateErr := none,
    deactivateErr := none }

/-- An interface whose output channel fails every write. -/
def ifBad : Interface :=
  { id := ⟨"bad", UnitKind.interface⟩,
    outputErr := some "connection reset",
    activateErr := none,
    deactivateErr := none }

/-- A loaded jig named `j.jig` whose default scenario is `a.scenario`. -/
def jigJ : Jig :=
  { id := ⟨"j", UnitKind.jig⟩,
    name := "J",
    description := "jig j",
    default_scenario := some ⟨"a", UnitKind.scenario⟩,
    deselectErr := none,
    activateErr := none }


/-- Scenarios `a` and `b` loaded, `a` current. -/
def stTwo : ManagerState :=
  { emptyState with
    scenarios := [(scA.id, scA), (scB.id, scB)],
    current_scenario := some scA }

/-- Scenario `a` loaded, nothing current. -/
def stLoaded : ManagerState :=
  { emptyState with scenarios := [(scA.id, scA)] }

/-- Scenario `a` loaded and current. -/
def stSel : ManagerState :=
  { emptyState with
    scenarios := [(scA.id, scA)],
    current_scenario := some scA }

/-- Interface `bad` (whose output channel fails) loaded. -/
def stBad : ManagerState :=
  { emptyState with interfaces := [(ifBad.id, ifBad)] }

/-- Interface `if0` (working output) loaded. -/
def stIf : ManagerState :=
  { emptyState with interfaces := [(ifGood.id, ifGood)] }

/-- The manager state at the moment `activate_jig` reaches its
default-scenario step (lines 403-406) on the panic-free path (no jig was
current): the new jig's `activate` hook has run, the new jig is current and
its `Active` status has been broadcast. -/
def after_jig_current (st : ManagerState) (j : Jig) : ManagerState :=
  { st with
    current_jig := some j,
    hooks := (st.hooks ++ [HookCall.activateHook j.id]),
    events := (st.events ++ [UnitEvent.status ⟨j.id, UnitStatus.active⟩]) }

/-- Jig `j` loaded, nothing else. -/
def stJig : ManagerState :=
  { emptyState with jigs := [(jigJ.id, jigJ)] }

/-- A second jig with no default scenario, used to occupy the slot. -/
def jigOld : Jig :=
  { id := ⟨"old", UnitKind.jig⟩,
    name := "Old",
    description := "old jig",
    default_scenario := none,
    deselectErr := none,
    activateErr := none }

/-- Jig `j` loaded while another jig occupies the `current_jig` slot. -/
def stBusyJig : ManagerState :=
  { emptyState with
    jigs := [(jigJ.id, jigJ)],
    current_jig := some jigOld }

/-- Jig `j` loaded, its default scenario `a.scenario` loaded, and a scenario
occupying the `current_scenario` slot. -/
def stScenBusy : ManagerState :=
  { emptyState with
    jigs := [(jigJ.id, jigJ)],
    scenarios := [(scA.id, scA)],
    current_scenario := some scB }

/-- Interface `if0` and scenario `a` loaded, `a` current. -/
def stGreet : ManagerState :=
  { emptyState with
    interfaces := [(ifGood.id, ifGood)],
    scenarios := [(scA.id, scA)],
    current_scenario := some scA }

/-- A scenario with one test in its sequence. -/
def scW : Scenario :=
  { id := ⟨"w", UnitKind.scenario⟩,
    name := "W",
    description := "scenario w",
    tests := [(tT.id, tT)],
    test_sequence := [tT.id],
    selectErr := none,
    deselectErr := none,
    activateErr := none,
    deactivateErr := none }

/-- Interface `if0` loaded together with scenario `w` (which has a test). -/
def stProj : ManagerState :=
  { emptyState with
    interfaces := [(ifGood.id, ifGood)],
    scenarios := [(scW.id, scW)] }

/-- Jig `j`, scenario `a` and test `t` loaded, nothing current. -/
def stFull : ManagerState :=
  { emptyState with
    jigs := [(jigJ.id, jigJ)],
    scenarios := [(scA.id, scA)],
    tests := [(tT.id, tT)] }

/-! ### Helper lemmas -/



theorem lookupKV_mem {α : Type} {l : List (UnitName × α)} {n : UnitName} {v : α}
    (h : lookupKV l n = some v) : (n, v) ∈ l := by
  induction l with
  | nil => simp [lookupKV] at h
  | cons p rest ih =>
    obtain ⟨k, w⟩ := p
    rw [lookupKV] at h
    by_cases hk : k = n
    · subst hk
      simp at h
      subst h
      exact List.mem_cons_self _ _
    · rw [if_neg hk] at h
      exact List.mem_cons_of_mem _ (ih h)

theorem lookupKV_isSome_of_mem_keys {α : Type} {l : List (UnitName × α)}
    {n : UnitName} (h : n ∈ l.map Prod.fst) : ∃ v, lookupKV l n = some v := by
  induction l with
  | nil => simp at h
  | cons p rest ih =>
    obtain ⟨k, w⟩ := p
    rw [lookupKV]
    by_cases hk : k = n
    · exact ⟨w, if_pos hk⟩
    · rw [if_neg hk]
      refine ih ?_
      rcases List.mem_cons.mp h with h1 | h1
      · exact absurd h1.symm hk
      · exact h1

theorem lookupKV_removeKV_self {α : Type} (l : List (UnitName × α)) (n : UnitName) :
    lookupKV (removeKV l n) n = none := by
  induction l with
  | nil => rfl
  | cons p rest ih =>
    obtain ⟨k, w⟩ := p
    simp only [removeKV, List.filter_cons] at ih ⊢
    by_cases hk : k = n
    · simp only [hk]
      simp only [ne_eq, not_true_eq_false, decide_False, Bool.false_eq_true, if_false]
      exact ih
    · have hd : (decide ((k, w).1 ≠ n)) = true := by simp [hk]
      rw [if_pos hd, lookupKV, if_neg hk]
      exact ih

theorem lookupKV_none_of_kind {α : Type} {l : List (UnitName × α)} {k : UnitKind}
    (hl : ∀ p ∈ l, (p : UnitName × α).1.kind = k) {n : UnitName}
    (hn : n.kind ≠ k) : lookupKV l n = none := by
  induction l with
  | nil => rfl
  | cons p rest ih =>
    obtain ⟨k1, w⟩ := p
    rw [lookupKV]
    have h1 : k1.kind = k := hl (k1, w) (List.mem_cons_self _ _)
    have hne : k1 ≠ n := by
      rintro rfl
      exact hn h1
    rw [if_neg hne]
    exact ih (fun p hp => hl p (List.mem_cons_of_mem _ hp))



theorem send_messages_to_ok {st : ManagerState} {s : UnitName} {i : Interface}
    (hk : s.kind = UnitKind.interface) (hl : lookupKV st.interfaces s = some i)
    (ho : i.outputErr = none) (msgs : List ManagerStatusMessage) :
    send_messages_to st s msgs =
      Except.ok { st with sent := st.sent ++ msgs.map (fun m => (s, m)) } := by
  simp [send_messages_to, hk, hl, ho]

theorem send_to_each_ok (ids : List UnitName) :
    ∀ (st : ManagerState) (msgs : List ManagerStatusMessage),
    (∀ n ∈ ids, n.kind = UnitKind.interface ∧
        ∃ i, lookupKV st.interfaces n = some i ∧ i.outputErr = none) →
    send_to_each st ids msgs =
      Except.ok { st with sent := (st.sent ++
        ids.flatMap (fun n => msgs.map (fun m => (n, m)))) } := by
  induction ids with
  | nil => intro st msgs _; simp [send_to_each]
  | cons n rest ih =>
    intro st msgs h
    obtain ⟨hk, i, hl, ho⟩ := h n (List.mem_cons_self _ _)
    rw [send_to_each, send_messages_to_ok hk hl ho]
    have hrest : ∀ n' ∈ rest, n'.kind = UnitKind.interface ∧
        ∃ i', lookupKV ({ st with sent := st.sent ++ msgs.map (fun m => (n, m)) } :
          ManagerState).interfaces n' = some i' ∧ i'.outputErr = none := by
      intro n' hn'
      exact h n' (List.mem_cons_of_mem _ hn')
    rw [show (Bind.bind (Except.ok ({ st with sent := st.sent ++ msgs.map (fun m => (n, m)) } : ManagerState)) (fun st1 => send_to_each st1 rest msgs) : Except String ManagerState) = send_to_each ({ st with sent := st.sent ++ msgs.map (fun m => (n, m)) } : ManagerState) rest msgs from rfl]
    rw [ih _ msgs hrest]
    simp [List.append_assoc]



/-- Deselecting the current scenario with a succeeding hook. -/
theorem deselect_current_scenario (fuel : Nat) (st : ManagerState) (r : String)
    (sc : Scenario) (hk : sc.id.kind = UnitKind.scenario)
    (hc : st.current_scenario = some sc) (he : sc.deselectErr = none) :
    deselectGo (fuel + 1) st sc.id r = Except.ok
      { st with
        current_scenario := none,
        hooks := st.hooks ++ [HookCall.deselectHook sc.id],
        events := st.events ++ [UnitEvent.status ⟨sc.id, UnitStatus.deselected r⟩] } := by
  simp [deselectGo, deselect_scenario, hk, hc, he, ManagerState.hook,
    ManagerState.broadcast]

/-- Deselecting a scenario-kind unit that is not current (or none current). -/
theorem deselect_scenariokind_noncurrent (fuel : Nat) (st : ManagerState)
    (id : UnitName) (r : String) (hk : id.kind = UnitKind.scenario)
    (hc : ∀ sc, st.current_scenario = some sc → sc.id ≠ id) :
    deselectGo (fuel + 1) st id r = Except.ok
      { st with events := st.events ++ [UnitEvent.status ⟨id, UnitStatus.deselected r⟩] } := by
  cases hcs : st.current_scenario with
  | none => simp [deselectGo, deselect_scenario, hk, hcs, ManagerState.broadcast]
  | some sc =>
    have := hc sc hcs
    simp [deselectGo, deselect_scenario, hk, hcs, this, ManagerState.broadcast]



/-- Bind of a successful `Except` computation reduces. -/
theorem exceptBind_ok {e a b : Type} (x : a) (f : a → Except e b) :
    (Bind.bind (Except.ok x) f : Except e b) = f x := rfl

/-- Deactivating a scenario-kind unit when no scenario is current: the
deselect broadcasts `Deselected`, the scenario dispatch is a no-op, and one
`DeactivateSuccess` is broadcast. -/
theorem deactivate_scenariokind_nocurrent (st : ManagerState) (id : UnitName)
    (r : String) (hk : id.kind = UnitKind.scenario)
    (hc : st.current_scenario = none) :
    deactivate st id r = Except.ok
      { st with events := (st.events ++
          [UnitEvent.status ⟨id, UnitStatus.deselected r⟩,
           UnitEvent.status ⟨id, UnitStatus.deactivateSuccess r⟩]) } := by
  rw [deactivate, deselect]
  rw [show (9 : Nat) = 8 + 1 from rfl,
    deselect_scenariokind_noncurrent 8 st id r hk (by intro sc hsc; rw [hc] at hsc; cases hsc)]
  simp [exceptBind_ok, deactivate_scenario, hk, hc, ManagerState.broadcast,
    List.append_assoc]

/-- Deselecting a jig-kind unit when no jig is current: only the
`Deselected` broadcast happens. -/
theorem deselect_jigkind_nocurrent (fuel : Nat) (st : ManagerState)
    (id : UnitName) (r : String) (hk : id.kind = UnitKind.jig)
    (hc : st.current_jig = none) :
    deselectGo (fuel + 1) st id r = Except.ok
      { st with events := (st.events ++
          [UnitEvent.status ⟨id, UnitStatus.deselected r⟩]) } := by
  simp [deselectGo, hk, hc, ManagerState.broadcast]

/-- Deactivating a jig-kind unit when no jig is current. -/
theorem deactivate_jigkind_nocurrent (st : ManagerState) (id : UnitName)
    (r : String) (hk : id.kind = UnitKind.jig) (hc : st.current_jig = none) :
    deactivate st id r = Except.ok
      { st with events := (st.events ++
          [UnitEvent.status ⟨id, UnitStatus.deselected r⟩,
           UnitEvent.status ⟨id, UnitStatus.deactivateSuccess r⟩]) } := by
  rw [deactivate, deselect]
  rw [show (9 : Nat) = 8 + 1 from rfl, deselect_jigkind_nocurrent 8 st id r hk hc]
  simp [exceptBind_ok, deactivate_jig, hk, ManagerState.broadcast, List.append_assoc]




theorem exceptIsOk_exists {e a : Type} {x : Except e a}
    (h : exceptIsOk x = true) : ∃ v, x = Except.ok v := by
  cases x with
  | ok v => exact ⟨v, rfl⟩
  | error p => simp [exceptIsOk] at h

/-- Deselect of a scenario-kind name never panics. -/
theorem deselectGo_scenario_total (fuel : Nat) (st : ManagerState)
    (id : UnitName) (r : String) (hk : id.kind = UnitKind.scenario) :
    exceptIsOk (deselectGo (fuel + 1) st id r) = true := by
  cases hc : st.current_scenario with
  | none => simp [deselectGo, deselect_scenario, hk, hc, exceptIsOk]
  | some sc =>
    by_cases hid : sc.id = id
    · cases he : sc.deselectErr <;>
        simp [deselectGo, deselect_scenario, hk, hc, hid, he, ManagerState.hook,
          ManagerState.broadcast, exceptIsOk]
    · simp [deselectGo, deselect_scenario, hk, hc, hid, exceptIsOk]

/-- Deselect of a jig-kind name never panics, provided the current jig's
default scenario (if any) is scenario-kind. -/
theorem deselectGo_jig_total (fuel : Nat) (st : ManagerState)
    (id : UnitName) (r : String) (hk : id.kind = UnitKind.jig)
    (hd : JigDefaultIsScenario st) :
    exceptIsOk (deselectGo (fuel + 1 + 1) st id r) = true := by
  rw [deselectGo]
  cases hc : st.current_jig with
  | none => simp [hk, hc, exceptIsOk]
  | some j =>
    by_cases hid : j.id = id
    · cases hds : j.default_scenario with
      | none =>
        cases he : j.deselectErr <;>
          simp [hk, hc, hid, hds, he, ManagerState.hook,
            ManagerState.broadcast, exceptIsOk]
      | some ds =>
        obtain ⟨st1, h1⟩ := exceptIsOk_exists
          (deselectGo_scenario_total fuel st ds "jig is deselecting"
            (hd j ds hc hds))
        cases he : j.deselectErr <;>
          simp [hk, hc, hid, hds, h1, he, ManagerState.hook,
            ManagerState.broadcast, exceptIsOk]
    · simp [hk, hc, hid, exceptIsOk]

/-- A successful deselect never touches the four registries. -/
theorem deselectGo_frame : ∀ (fuel : Nat) (st : ManagerState) (id : UnitName)
    (r : String) (st' : ManagerState), deselectGo fuel st id r = Except.ok st' →
    st'.interfaces = st.interfaces ∧ st'.jigs = st.jigs ∧
    st'.scenarios = st.scenarios ∧ st'.tests = st.tests := by
  intro fuel
  induction fuel with
  | zero => intro st id r st' h; simp [deselectGo] at h
  | succ fuel ih =>
    intro st id r st' h
    rw [deselectGo] at h
    cases hk : id.kind with
    | interface => simp [hk, deselect_interface] at h
    | test => simp [hk, deselect_test] at h
    | internal =>
      simp [hk, ManagerState.broadcast] at h
      subst h
      exact ⟨rfl, rfl, rfl, rfl⟩
    | scenario =>
      cases hc : st.current_scenario with
      | none =>
        simp [hk, deselect_scenario, hc, ManagerState.broadcast] at h
        subst h
        exact ⟨rfl, rfl, rfl, rfl⟩
      | some sc =>
        by_cases hid : sc.id = id
        · cases he : sc.deselectErr with
          | none =>
            simp [hk, deselect_scenario, hc, hid, he, ManagerState.hook,
              ManagerState.broadcast] at h
            subst h
            exact ⟨rfl, rfl, rfl, rfl⟩
          | some e =>
            simp [hk, deselect_scenario, hc, hid, he, ManagerState.hook] at h
            subst h
            exact ⟨rfl, rfl, rfl, rfl⟩
        · simp [hk, deselect_scenario, hc, hid, ManagerState.broadcast] at h
          subst h
          exact ⟨rfl, rfl, rfl, rfl⟩
    | jig =>
      cases hc : st.current_jig with
      | none =>
        simp [hk, hc, ManagerState.broadcast] at h
        subst h
        exact ⟨rfl, rfl, rfl, rfl⟩
      | some j =>
        by_cases hid : j.id = id
        · cases hds : j.default_scenario with
          | none =>
            cases he : j.deselectErr with
            | none =>
              simp [hk, hc, hid, hds, he, ManagerState.hook,
                ManagerState.broadcast] at h
              subst h
              exact ⟨rfl, rfl, rfl, rfl⟩
            | some e =>
              simp [hk, hc, hid, hds, he, ManagerState.hook] at h
              subst h
              exact ⟨rfl, rfl, rfl, rfl⟩
          | some ds =>
            cases hrec : deselectGo fuel st ds "jig is deselecting" with
            | error p => simp [hk, hc, hid, hds, hrec] at h
            | ok st1 =>
              obtain ⟨f1, f2, f3, f4⟩ := ih st ds "jig is deselecting" st1 hrec
              cases he : j.deselectErr with
              | none =>
                simp [hk, hc, hid, hds, hrec, he, ManagerState.hook,
                  ManagerState.broadcast] at h
                subst h
                exact ⟨f1, f2, f3, f4⟩
              | some e =>
                simp [hk, hc, hid, hds, hrec, he, ManagerState.hook] at h
                subst h
                exact ⟨f1, f2, f3, f4⟩
        · simp [hk, hc, hid, ManagerState.broadcast] at h
          subst h
          exact ⟨rfl, rfl, rfl, rfl⟩


/-- Bind of a failed `Except` computation reduces. -/
theorem exceptBind_error {e a b : Type} (p : e) (f : a → Except e b) :
    (Bind.bind (Except.error p) f : Except e b) = Except.error p := rfl

/-- When `activate_scenario` returns (rather than panicking on an occupied
slot), it has not touched the `current_jig` slot. -/
theorem activate_scenario_preserves_jig (st : ManagerState) (id : UnitName)
    (res : Except UnitActivateError Unit) (st' : ManagerState)
    (h : activate_scenario st id = Except.ok (res, st')) :
    st'.current_jig = st.current_jig := by
  rw [activate_scenario] at h
  cases hl : lookupKV st.scenarios id with
  | none =>
    simp [hl] at h
    rw [← h.2]
  | some ns =>
    cases hc : st.current_scenario with
    | none =>
      cases he : ns.activateErr with
      | none =>
        simp [hl, hc, he, ManagerState.hook, ManagerState.broadcast] at h
        rw [← h.2]
      | some e1 =>
        simp [hl, hc, he, ManagerState.hook] at h
        rw [← h.2]
    | some old => simp [hl, hc] at h

/-! ### The claims -/

/-- Claim C1 (code_bug): with `a` current, `select_scenario b` passes the NEW
id `b` to `deselect`, so the old scenario `a` is never deselected: its
`deselect` hook does not run and no `Deselected(a)` event is broadcast;
instead a spurious `Deselected(b)` event appears, then `b` is selected and
made current and `Active(b)` is broadcast. -/
theorem c1_select_scenario_deselects_new_id :
    select_scenario stTwo scB.id = Except.ok (Except.ok (),
      { stTwo with
        current_scenario := some scB,
        events := [UnitEvent.status ⟨scB.id, UnitStatus.deselected "switching to a new scenario"⟩,
                   UnitEvent.status ⟨scB.id, UnitStatus.active⟩],
        hooks := [HookCall.selectHook scB.id] }) ∧
    HookCall.deselectHook scA.id ∉ [HookCall.selectHook scB.id] ∧
    UnitEvent.status ⟨scA.id, UnitStatus.deselected "switching to a new scenario"⟩ ∉
      [UnitEvent.status ⟨scB.id, UnitStatus.deselected "switching to a new scenario"⟩,
       UnitEvent.status ⟨scB.id, UnitStatus.active⟩] := by
  refine ⟨rfl, by decide, by decide⟩

/-- Claim C2 counterexample: after `select(a)` (which already emits two
`Active(a)` events: one inside `select_scenario`, one from the `select`
wrapper), a second `select(a)` emits one more `Active(a)` event, so the
second call is not event-free. -/
theorem c2_second_select_emits_event :
    Except.map (fun st => st.events) (select stLoaded scA.id) =
      Except.ok [UnitEvent.status ⟨scA.id, UnitStatus.active⟩,
                 UnitEvent.status ⟨scA.id, UnitStatus.active⟩] ∧
    Except.map (fun st => st.events)
        ((select stLoaded scA.id).bind (fun st1 => select st1 scA.id)) =
      Except.ok [UnitEvent.status ⟨scA.id, UnitStatus.active⟩,
                 UnitEvent.status ⟨scA.id, UnitStatus.active⟩,
                 UnitEvent.status ⟨scA.id, UnitStatus.active⟩] := by
  refine ⟨rfl, rfl⟩

/-- Claim C2 (corrected): when `current_scenario` already equals the
requested name, `select_scenario` is a no-op that emits nothing itself, but
the `select` wrapper still broadcasts one `Status::Active` event; the state
is otherwise unchanged. -/
theorem c2_repeat_select_only_wrapper_active (st : ManagerState) (u : UnitName)
    (sc sc' : Scenario) (hk : u.kind = UnitKind.scenario)
    (hl : lookupKV st.scenarios u = some sc')
    (hc : st.current_scenario = some sc) (hid : sc.id = u) :
    select st u =
      Except.ok (st.broadcast (UnitEvent.status ⟨u, UnitStatus.active⟩)) := by
  simp [select, select_scenario, hk, hl, hc, hid, exceptBind_ok,
    ManagerState.broadcast]

/-- Witness for C2: the no-op path taken at a concrete state. -/
theorem c2_repeat_select_witness :
    select stSel scA.id =
      Except.ok (stSel.broadcast (UnitEvent.status ⟨scA.id, UnitStatus.active⟩)) :=
  c2_repeat_select_only_wrapper_active stSel scA.id scA scA rfl rfl rfl rfl

/-- Claim C3 counterexample: an interface is activated (one `Active` event),
but `deactivate` on it panics in the unimplemented `deselect_interface`, so
no `DeactivateSuccess` is ever emitted for an activated interface. -/
theorem c3_deactivate_interface_panics :
    (activate stIf ifGood.id).bind (fun st1 => deactivate st1 ifGood.id "stop") =
      Except.error "unimplemented" := by
  rfl

/-- Claim C3 (corrected, scenario case): deactivating the current scenario
first dispatches the deselect (the unit's deselect hook runs, the slot is
cleared, `Deselected` is broadcast), then the scenario deactivate dispatch
(a no-op, since the slot is already empty), and exactly one
`DeactivateSuccess` is appended after the `Deselected`; the unit stays in
its registry — Selected but no longer current. -/
theorem c3_deactivate_returns_scenario_to_selected (st : ManagerState)
    (sc : Scenario) (r : String)
    (hk : sc.id.kind = UnitKind.scenario)
    (hreg : lookupKV st.scenarios sc.id = some sc)
    (hc : st.current_scenario = some sc)
    (he : sc.deselectErr = none) :
    ∃ st', deactivate st sc.id r = Except.ok st' ∧
      st'.current_scenario = none ∧
      get_scenario_named st' sc.id = some sc ∧
      st'.events = st.events ++
        [UnitEvent.status ⟨sc.id, UnitStatus.deselected r⟩,
         UnitEvent.status ⟨sc.id, UnitStatus.deactivateSuccess r⟩] ∧
      st'.hooks = st.hooks ++ [HookCall.deselectHook sc.id] := by
  refine ⟨{ st with
      current_scenario := none,
      hooks := (st.hooks ++ [HookCall.deselectHook sc.id]),
      events := (st.events ++
        [UnitEvent.status ⟨sc.id, UnitStatus.deselected r⟩,
         UnitEvent.status ⟨sc.id, UnitStatus.deactivateSuccess r⟩]) },
    ?_, rfl, ?_, rfl, rfl⟩
  · rw [deactivate, deselect, show (9 : Nat) = 8 + 1 from rfl,
      deselect_current_scenario 8 st r sc hk hc he]
    simp [exceptBind_ok, deactivate_scenario, hk, ManagerState.broadcast,
      List.append_assoc]
  · simp [get_scenario_named, hreg]

/-- Witness for C3: the scenario case at a concrete state. -/
theorem c3_witness :
    ∃ st', deactivate stSel scA.id "stop" = Except.ok st' ∧
      st'.current_scenario = none ∧
      get_scenario_named st' scA.id = some scA ∧
      st'.events = stSel.events ++
        [UnitEvent.status ⟨scA.id, UnitStatus.deselected "stop"⟩,
         UnitEvent.status ⟨scA.id, UnitStatus.deactivateSuccess "stop"⟩] ∧
      st'.hooks = stSel.hooks ++ [HookCall.deselectHook scA.id] :=
  c3_deactivate_returns_scenario_to_selected stSel scA "stop" rfl rfl rfl rfl

/-- Claim C4 counterexample: with another jig current, `activate_jig` panics
at once in the held-`RefMut` double borrow (the new jig is never made
current, no error result is returned); and with a scenario current while the
declared default scenario is loaded, the default-scenario step panics in the
same way instead of propagating any activation error. -/
theorem c4_occupied_slot_panics :
    activate_jig stBusyJig jigJ.id =
      Except.error "already borrowed: BorrowMutError" ∧
    activate_jig stScenBusy jigJ.id =
      Except.error "already mutably borrowed: BorrowError" := by
  refine ⟨rfl, rfl⟩

/-- Claim C4 (corrected): on the panic-free region — no jig current, and the
default-scenario step itself not panicking — `activate_jig` first makes the
new jig current (broadcasting its `Active` status) and only then activates
the declared default scenario; when that activation fails, the error
propagates as the overall result of `activate_jig`, and `current_jig` still
holds the new jig in the final state. -/
theorem c4_default_scenario_failure_keeps_jig_current
    (st stAfter : ManagerState) (j : Jig) (ds : UnitName) (e : UnitActivateError)
    (hl : lookupKV st.jigs j.id = some j)
    (hja : j.activateErr = none)
    (hds : j.default_scenario = some ds)
    (hcj : st.current_jig = none)
    (hfail : activate_scenario (after_jig_current st j) ds =
      Except.ok (Except.error e, stAfter)) :
    activate_jig st j.id = Except.ok (Except.error e, stAfter) ∧
    stAfter.current_jig = some j := by
  have hpres := activate_scenario_preserves_jig (after_jig_current st j) ds
    (Except.error e) stAfter hfail
  constructor
  · have hfail' := hfail
    simp only [after_jig_current] at hfail'
    simp [activate_jig, hl, hcj, hja, hds, hfail', exceptBind_ok,
      ManagerState.hook, ManagerState.broadcast]
  · rw [hpres]
    simp [after_jig_current]

/-- Witness for C4: jig `j` declares default scenario `a.scenario`, which is
not loaded, so its activation fails with `UnitNotFound`; the overall
activation fails but the jig stays current. -/
theorem c4_witness :
    activate_jig stJig jigJ.id =
      Except.ok (Except.error UnitActivateError.unitNotFound,
        after_jig_current stJig jigJ) ∧
    (after_jig_current stJig jigJ).current_jig = some jigJ :=
  c4_default_scenario_failure_keeps_jig_current stJig (after_jig_current stJig jigJ)
    jigJ ⟨"a", UnitKind.scenario⟩ UnitActivateError.unitNotFound rfl rfl rfl
    rfl rfl

/-- Claim C5 (code_bug): when `output_message` fails, the reply path builds
the reason "communication error: e" but the `deactivate` it calls panics in
the unimplemented `deselect_interface`, and the `Log` fan-out panics directly
through `.expect`; in neither path is the interface deactivated. -/
theorem c5_output_error_panics :
    send_messages_to stBad ifBad.id [ManagerStatusMessage.hello "Jig/20 1.0"] =
      Except.error "unimplemented" ∧
    process_message stBad
        (UnitEvent.log ⟨⟨"sys", UnitKind.internal⟩, LogLevel.info, "boot"⟩) =
      Except.error "Unable to pass message to client" := by
  refine ⟨rfl, rfl⟩

/-- Claim C6 (code_bug): a `Start` naming a loaded scenario resolves the
handle and then does nothing at all — no events, no state change, no hand-off
to any runner; the two error branches do log as described. -/
theorem c6_start_resolves_but_does_nothing :
    manager_request stLoaded
        ⟨⟨"cli", UnitKind.interface⟩, ManagerControlMessageContents.start (some scA.id)⟩ =
      Except.ok stLoaded ∧
    manager_request stLoaded
        ⟨⟨"cli", UnitKind.interface⟩,
         ManagerControlMessageContents.start (some ⟨"zz", UnitKind.scenario⟩)⟩ =
      Except.ok (stLoaded.broadcast (UnitEvent.log ⟨⟨"cli", UnitKind.interface⟩,
        LogLevel.error, "unable to find scenario zz.scenario to start it"⟩)) ∧
    manager_request { stLoaded with current_scenario := none }
        ⟨⟨"cli", UnitKind.interface⟩, ManagerControlMessageContents.start none⟩ =
      Except.ok (stLoaded.broadcast (UnitEvent.log ⟨⟨"cli", UnitKind.interface⟩,
        LogLevel.error, "no scenario selected to start"⟩)) := by
  refine ⟨rfl, rfl, rfl⟩

/-- Claim C7 (confirmed): on `InitialGreeting` from a registered interface
whose output works, the manager delivers, in order: `Hello "Jig/20 1.0"`,
the current-jig batch (empty-id placeholder when none), the scenarios list
with per-scenario describes, and — iff a scenario is current — that
scenario's details; nothing else in the state changes. -/
theorem c7_initial_greeting_sequence (st : ManagerState) (s : UnitName)
    (i : Interface) (hk : s.kind = UnitKind.interface)
    (hl : lookupKV st.interfaces s = some i) (ho : i.outputErr = none) :
    manager_request st ⟨s, ManagerControlMessageContents.initialGreeting⟩ =
      Except.ok { st with
        sent := (st.sent ++ (greeting_messages st).map (fun m => (s, m))) } := by
  have hj : ∀ (cs : Option Scenario) (q : List (UnitName × ManagerStatusMessage)),
      jig_messages { st with current_scenario := cs, sent := q } =
        jig_messages st := fun _ _ => rfl
  have hs : ∀ (cs : Option Scenario) (q : List (UnitName × ManagerStatusMessage)),
      scenarios_messages { st with current_scenario := cs, sent := q } =
        scenarios_messages st := fun _ _ => rfl
  have hsm : ∀ (cs : Option Scenario) (q : List (UnitName × ManagerStatusMessage))
      (n : UnitName),
      scenario_messages { st with current_scenario := cs, sent := q } n =
        scenario_messages st n := fun _ _ _ => rfl
  cases hc : st.current_scenario with
  | none =>
    simp [manager_request, send_hello_to, send_jig_to, send_scenarios_to,
      send_scenario_to, send_messages_to, hk, hl, ho, hc, greeting_messages,
      hj, hs, hsm, exceptBind_ok, List.map_append, List.append_assoc]
  | some sc =>
    simp [manager_request, send_hello_to, send_jig_to, send_scenarios_to,
      send_scenario_to, send_messages_to, hk, hl, ho, hc, greeting_messages,
      hj, hs, hsm, exceptBind_ok, List.map_append, List.append_assoc]

/-- Witness for C7 at a concrete state with a current scenario. -/
theorem c7_witness :
    manager_request stGreet ⟨ifGood.id, ManagerControlMessageContents.initialGreeting⟩ =
      Except.ok { stGreet with
        sent := (stGreet.sent ++
          (greeting_messages stGreet).map (fun m => (ifGood.id, m))) } :=
  c7_initial_greeting_sequence stGreet ifGood.id ifGood rfl rfl rfl

/-- Claim C8 counterexample: for a scenario with one test, `Status::Active`
makes the projector deliver exactly the three messages of the triple — no
Name+Description pair for the test and no `Tests` list message, contrary to
the claim. -/
theorem c8_no_tests_message_in_projection :
    status_message stProj ⟨scW.id, UnitStatus.active⟩ =
      Except.ok { stProj with
        sent := [(ifGood.id, ManagerStatusMessage.scenario (some scW.id)),
                 (ifGood.id, ManagerStatusMessage.describe UnitKind.scenario
                   FieldType.name "w" "W"),
                 (ifGood.id, ManagerStatusMessage.describe UnitKind.scenario
                   FieldType.description "w" "scenario w")] } ∧
    ManagerStatusMessage.tests scW.id scW.test_sequence ∉
      ([(ifGood.id, ManagerStatusMessage.scenario (some scW.id)),
        (ifGood.id, ManagerStatusMessage.describe UnitKind.scenario
          FieldType.name "w" "W"),
        (ifGood.id, ManagerStatusMessage.describe UnitKind.scenario
          FieldType.description "w" "scenario w")] :
        List (UnitName × ManagerStatusMessage)).map Prod.snd := by
  refine ⟨rfl, by decide⟩

/-- Claim C8 (corrected): a `Status::Active` event for a loaded scenario
makes the projector send every interface exactly the triple — the scenario
identity, a Name describe and a Description describe — and nothing more. -/
theorem c8_active_scenario_broadcasts_triple (st : ManagerState)
    (sid : UnitName) (sc : Scenario) (hk : sid.kind = UnitKind.scenario)
    (hl : lookupKV st.scenarios sid = some sc)
    (hifk : ∀ p ∈ st.interfaces, (p : UnitName × Interface).1.kind = UnitKind.interface)
    (hok : ∀ p ∈ st.interfaces, (p : UnitName × Interface).2.outputErr = none) :
    status_message st ⟨sid, UnitStatus.active⟩ =
      Except.ok { st with
        sent := (st.sent ++ (st.interfaces.map Prod.fst).flatMap (fun n =>
          ([ManagerStatusMessage.scenario (some sc.id),
            ManagerStatusMessage.describe sc.id.kind FieldType.name sc.id.id sc.name,
            ManagerStatusMessage.describe sc.id.kind FieldType.description sc.id.id
              sc.description]).map (fun m => (n, m)))) } := by
  rw [status_message]
  simp only [hk]
  rw [broadcast_scenario_named, hl]
  apply send_to_each_ok
  intro n hn
  obtain ⟨v, hv⟩ := lookupKV_isSome_of_mem_keys hn
  have hmem := lookupKV_mem hv
  exact ⟨hifk (n, v) hmem, v, hv, hok (n, v) hmem⟩

/-- Witness for C8 at the same concrete state. -/
theorem c8_witness :
    status_message stProj ⟨scW.id, UnitStatus.active⟩ =
      Except.ok { stProj with
        sent := (stProj.sent ++ (stProj.interfaces.map Prod.fst).flatMap (fun n =>
          ([ManagerStatusMessage.scenario (some scW.id),
            ManagerStatusMessage.describe scW.id.kind FieldType.name scW.id.id scW.name,
            ManagerStatusMessage.describe scW.id.kind FieldType.description scW.id.id
              scW.description]).map (fun m => (n, m)))) } :=
  c8_active_scenario_broadcasts_triple stProj scW.id scW rfl rfl
    (by decide) (by decide)

/-- Claim C9 counterexample: `unload` of a test-kind name panics in the
unimplemented `deselect_test` — even on an empty manager where the unit is
absent — instead of returning normally. -/
theorem c9_unload_test_panics :
    unload emptyState ⟨"t", UnitKind.test⟩ = Except.error "unimplemented" ∧
    unload emptyState ⟨"i", UnitKind.interface⟩ = Except.error "unimplemented" := by
  refine ⟨rfl, rfl⟩

/-- Claim C9 (corrected, jig/scenario kinds): `unload` deselects, then
removes the unit from its kind's registry; it returns normally whether or
not the unit is loaded, and afterwards `get_scenario_named`,
`get_test_named` and `jig_is_loaded` all report the name as absent. -/
theorem c9_unload_removes_and_lookups_fail (st : ManagerState) (u : UnitName)
    (hw : WellKinded st) (hd : JigDefaultIsScenario st)
    (hk : u.kind = UnitKind.scenario ∨ u.kind = UnitKind.jig) :
    ∃ st', unload st u = Except.ok st' ∧
      get_scenario_named st' u = none ∧
      get_test_named st' u = none ∧
      jig_is_loaded st' u = false := by
  obtain ⟨hwi, hwj, hws, hwt⟩ := hw
  rcases hk with hk | hk
  · obtain ⟨st1, h1⟩ := exceptIsOk_exists
      (deselectGo_scenario_total 8 st u "unloading" hk)
    have h9 : deselectGo 9 st u "unloading" = Except.ok st1 := h1
    obtain ⟨f1, f2, f3, f4⟩ := deselectGo_frame 9 st u "unloading" st1 h9
    refine ⟨unload_scenario st1 u, ?_, ?_, ?_, ?_⟩
    · rw [unload, deselect, h9]
      simp [hk, exceptBind_ok]
    · simp [get_scenario_named, unload_scenario, lookupKV_removeKV_self]
    · rw [show get_test_named (unload_scenario st1 u) u = lookupKV st1.tests u from rfl,
        f4]
      exact lookupKV_none_of_kind hwt (by simp [hk])
    · rw [show jig_is_loaded (unload_scenario st1 u) u =
        (lookupKV st1.jigs u).isSome from rfl, f2]
      rw [lookupKV_none_of_kind hwj (by simp [hk])]
      rfl
  · obtain ⟨st1, h1⟩ := exceptIsOk_exists
      (deselectGo_jig_total 7 st u "unloading" hk hd)
    have h9 : deselectGo 9 st u "unloading" = Except.ok st1 := h1
    obtain ⟨f1, f2, f3, f4⟩ := deselectGo_frame 9 st u "unloading" st1 h9
    refine ⟨unload_jig st1 u, ?_, ?_, ?_, ?_⟩
    · rw [unload, deselect, h9]
      simp [hk, exceptBind_ok]
    · rw [show get_scenario_named (unload_jig st1 u) u =
        lookupKV st1.scenarios u from rfl, f3]
      exact lookupKV_none_of_kind hws (by simp [hk])
    · rw [show get_test_named (unload_jig st1 u) u = lookupKV st1.tests u from rfl,
        f4]
      exact lookupKV_none_of_kind hwt (by simp [hk])
    · simp [jig_is_loaded, unload_jig, lookupKV_removeKV_self]

/-- Witness for C9: unloading the loaded scenario `a` at a concrete state. -/
theorem c9_witness :
    ∃ st', unload stFull scA.id = Except.ok st' ∧
      get_scenario_named st' scA.id = none ∧
      get_test_named st' scA.id = none ∧
      jig_is_loaded st' scA.id = false :=
  c9_unload_removes_and_lookups_fail stFull scA.id
    (by refine ⟨?_, ?_, ?_, ?_⟩ <;> decide)
    (by intro j ds h1 h2; cases h1)
    (Or.inl rfl)

/-- Claim C10 counterexample: a `Tests(None)` request from an unregistered
interface-kind sender does NOT crash when no scenario is current — the
handler broadcasts an error log and returns before any reply is sent. -/
theorem c10_tests_without_scenario_no_crash :
    manager_request emptyState
        ⟨⟨"fake", UnitKind.interface⟩, ManagerControlMessageContents.tests none⟩ =
      Except.ok (emptyState.broadcast (UnitEvent.log ⟨⟨"fake", UnitKind.interface⟩,
        LogLevel.error,
        "unable to list tests, no scenario specified and no scenario selected"⟩)) := by
  rfl

/-- Claim C10 (corrected): `send_messages_to` panics through `.expect` for
any interface-kind recipient missing from the registry, so `Jig`,
`Scenarios` and `InitialGreeting` from such a sender always crash the
manager, and `Tests` crashes whenever its scenario argument resolves (named
and loaded, or a current scenario that is loaded). -/
theorem c10_unregistered_interface_reply_crashes (st : ManagerState)
    (s : UnitName) (hk : s.kind = UnitKind.interface)
    (hl : lookupKV st.interfaces s = none) :
    manager_request st ⟨s, ManagerControlMessageContents.jig⟩ =
      Except.error "Unable to find Interface in the library" ∧
    manager_request st ⟨s, ManagerControlMessageContents.scenarios⟩ =
      Except.error "Unable to find Interface in the library" ∧
    manager_request st ⟨s, ManagerControlMessageContents.initialGreeting⟩ =
      Except.error "Unable to find Interface in the library" ∧
    (∀ sn sc, lookupKV st.scenarios sn = some sc →
      manager_request st ⟨s, ManagerControlMessageContents.tests (some sn)⟩ =
        Except.error "Unable to find Interface in the library") ∧
    (∀ sc sc', st.current_scenario = some sc →
      lookupKV st.scenarios sc.id = some sc' →
      manager_request st ⟨s, ManagerControlMessageContents.tests none⟩ =
        Except.error "Unable to find Interface in the library") := by
  refine ⟨?_, ?_, ?_, ?_, ?_⟩
  · simp [manager_request, send_jig_to, send_messages_to, hk, hl]
  · simp [manager_request, send_scenarios_to, send_messages_to, hk, hl]
  · simp [manager_request, send_hello_to, send_messages_to, hk, hl,
      exceptBind_error]
  · intro sn sc hsn
    simp [manager_request, send_tests_to, send_tests_resolved, hsn,
      send_messages_to, hk, hl]
  · intro sc sc' hc hsc
    simp [manager_request, send_tests_to, hc, send_tests_resolved, hsc,
      send_messages_to, hk, hl]

/-- Witness for C10: at a state with scenario `a` loaded and current, every
reply-bearing verb from the unregistered interface-kind sender panics. -/
theorem c10_witness :
    manager_request stSel ⟨⟨"fake", UnitKind.interface⟩, ManagerControlMessageContents.jig⟩ =
      Except.error "Unable to find Interface in the library" ∧
    manager_request stSel ⟨⟨"fake", UnitKind.interface⟩, ManagerControlMessageContents.scenarios⟩ =
      Except.error "Unable to find Interface in the library" ∧
    manager_request stSel ⟨⟨"fake", UnitKind.interface⟩, ManagerControlMessageContents.initialGreeting⟩ =
      Except.error "Unable to find Interface in the library" ∧
    manager_request stSel ⟨⟨"fake", UnitKind.interface⟩,
        ManagerControlMessageContents.tests (some scA.id)⟩ =
      Except.error "Unable to find Interface in the library" ∧
    manager_request stSel ⟨⟨"fake", UnitKind.interface⟩, ManagerControlMessageContents.tests none⟩ =
      Except.error "Unable to find Interface in the library" := by
  obtain ⟨h1, h2, h3, h4, h5⟩ :=
    c10_unregistered_interface_reply_crashes stSel ⟨"fake", UnitKind.interface⟩ rfl rfl
  exact ⟨h1, h2, h3, h4 scA.id scA rfl, h5 scA scA rfl rfl⟩
end Exclave
